import Mathlib

/-!
Shallow embedding of the Telegram → Notion ingestion service
(webhook handler and polling variant) together with proofs about its
attachment-upload pipeline, MIME inference, filename sanitization,
rich-text chunking, webhook secret verification, dedupe filtering and
configuration parsing.

Conventions of the embedding:
* JavaScript strings are Lean `String`s; operations that in the source
  act on UTF-16 code units act here on characters (all strings the
  properties depend on are ASCII at the relevant points).
* `TextEncoder`-encoded byte strings are `List Nat`.
* JavaScript numbers produced by `Number(...)` are modelled by `JSNum`
  (NaN, the infinities, or an exact rational value).
* Fallible external calls (Telegram API, Notion API, HTTP downloads)
  are modelled by oracles returning `Except` values; a thrown exception
  is the `.error` case carrying the message string.
-/

/-- NOTION_SINGLE_PART_UPLOAD_BYTES constant: 20 * 1024 * 1024. -/
def NOTION_SINGLE_PART_UPLOAD_BYTES : Nat := 20 * 1024 * 1024

/-- DEFAULT_TELEGRAM_NOTION_MAX_FILE_BYTES constant: 100 * 1024 * 1024. -/
def DEFAULT_TELEGRAM_NOTION_MAX_FILE_BYTES : Nat := 100 * 1024 * 1024

/-- NOTION_BLOCK_APPEND_BATCH_SIZE constant. -/
def NOTION_BLOCK_APPEND_BATCH_SIZE : Nat := 100

/-- JavaScript string truthiness for an optional string: truthy iff present
and non-empty (embeds `if (s)` on a `string | undefined | null`). -/
def jsTruthy (s : Option String) : Bool :=
  match s with
  | none => false
  | some v => v ≠ ""

/-- String.prototype.toLowerCase for the ASCII strings handled here,
written as a structural map over the characters. -/
def lowerStr (s : String) : String :=
  String.mk (s.data.map Char.toLower)

/-- String.prototype.trim on a character list: drop whitespace from both
ends. -/
def trimChars (l : List Char) : List Char :=
  ((l.dropWhile Char.isWhitespace).reverse.dropWhile Char.isWhitespace).reverse

/-- String.prototype.trim. -/
def trimStr (s : String) : String :=
  String.mk (trimChars s.data)

/-- List prefix test, written structurally. -/
def charsStartWith : List Char → List Char → Bool
  | _, [] => true
  | [], _ :: _ => false
  | b :: ss, a :: ps => a = b && charsStartWith ss ps

/-- String.prototype.startsWith. -/
def strStartsWith (s pre : String) : Bool :=
  charsStartWith s.data pre.data

/-- String.prototype.endsWith. -/
def strEndsWith (s suf : String) : Bool :=
  charsStartWith s.data.reverse suf.data.reverse

/-- FileInfo record describing one Telegram attachment before download. -/
structure FileInfo where
  file_id : String
  file_unique_id : String
  file_size : Option Nat := none
  file_name : Option String := none
  mime_type : Option String := none
  type : String
deriving Repr, DecidableEq

/-- EXTENSION_TO_MIME lookup table. -/
def EXTENSION_TO_MIME (ext : String) : Option String :=
  if ext = "jpg" then some "image/jpeg"
  else if ext = "jpeg" then some "image/jpeg"
  else if ext = "png" then some "image/png"
  else if ext = "webp" then some "image/webp"
  else if ext = "gif" then some "image/gif"
  else if ext = "bmp" then some "image/bmp"
  else if ext = "svg" then some "image/svg+xml"
  else if ext = "mp4" then some "video/mp4"
  else if ext = "mov" then some "video/quicktime"
  else if ext = "webm" then some "video/webm"
  else if ext = "mkv" then some "video/x-matroska"
  else if ext = "m4v" then some "video/x-m4v"
  else if ext = "mp3" then some "audio/mpeg"
  else if ext = "m4a" then some "audio/mp4"
  else if ext = "ogg" then some "audio/ogg"
  else if ext = "oga" then some "audio/ogg"
  else if ext = "opus" then some "audio/ogg"
  else if ext = "wav" then some "audio/wav"
  else if ext = "flac" then some "audio/flac"
  else if ext = "pdf" then some "application/pdf"
  else if ext = "txt" then some "text/plain"
  else if ext = "json" then some "application/json"
  else if ext = "csv" then some "text/csv"
  else if ext = "zip" then some "application/zip"
  else none

/-- MIME_TO_EXTENSION lookup table. -/
def MIME_TO_EXTENSION (mime : String) : Option String :=
  if mime = "image/jpeg" then some "jpg"
  else if mime = "image/png" then some "png"
  else if mime = "image/webp" then some "webp"
  else if mime = "image/gif" then some "gif"
  else if mime = "video/mp4" then some "mp4"
  else if mime = "video/quicktime" then some "mov"
  else if mime = "video/webm" then some "webm"
  else if mime = "video/x-matroska" then some "mkv"
  else if mime = "audio/mpeg" then some "mp3"
  else if mime = "audio/mp4" then some "m4a"
  else if mime = "audio/ogg" then some "ogg"
  else if mime = "audio/wav" then some "wav"
  else if mime = "audio/flac" then some "flac"
  else if mime = "application/pdf" then some "pdf"
  else if mime = "text/plain" then some "txt"
  else if mime = "application/json" then some "json"
  else if mime = "text/csv" then some "csv"
  else none

/-- Character class `[A-Za-z0-9_.-]`, i.e. the JavaScript `\w` class plus
dot and hyphen: the complement of the class replaced by underscores in
`sanitizeFilename` (`/[^\w.\-]+/g`). -/
def isFilenameChar (c : Char) : Bool :=
  (('A' ≤ c ∧ c ≤ 'Z') ∨ ('a' ≤ c ∧ c ≤ 'z') ∨ ('0' ≤ c ∧ c ≤ '9')
    ∨ c = '_' ∨ c = '.' ∨ c = '-')

/-- Replacement pass of `sanitizeFilename`: every maximal run of characters
outside `[A-Za-z0-9_.-]` becomes a single underscore
(embeds `.replace(/[^\w.\-]+/g, "_")`). -/
def replaceDisallowedRuns : List Char → List Char
  | [] => []
  | c :: rest =>
    if isFilenameChar c then
      c :: replaceDisallowedRuns rest
    else
      '_' :: replaceDisallowedRuns (rest.dropWhile (fun d => ¬ isFilenameChar d))
termination_by l => l.length
decreasing_by
  all_goals
    first
      | (simp only [List.length_cons]; omega)
      | (have h : (List.dropWhile (fun d => ¬ isFilenameChar d) rest).length ≤ rest.length :=
           (List.dropWhile_sublist _).length_le
         simp only [List.length_cons]; omega)

/-- Underscore-collapsing pass of `sanitizeFilename`: every maximal run of
two or more underscores becomes a single underscore
(embeds `.replace(/_{2,}/g, "_")`; a run of length one is left alone, which
gives the same result as collapsing every run). -/
def collapseUnderscores : List Char → List Char
  | [] => []
  | c :: rest =>
    if c = '_' then
      '_' :: collapseUnderscores (rest.dropWhile (fun d => d = '_'))
    else
      c :: collapseUnderscores rest
termination_by l => l.length
decreasing_by
  all_goals
    first
      | (simp only [List.length_cons]; omega)
      | (have h : (List.dropWhile (fun d => d = '_') rest).length ≤ rest.length :=
           (List.dropWhile_sublist _).length_le
         simp only [List.length_cons]; omega)

/-- sanitizeFilename: trim, replace runs of disallowed characters with a
single underscore, collapse repeated underscores, fall back to
"telegram_file" when empty, truncate to 180 characters. -/
def sanitizeFilename (filename : String) : String :=
  let cleaned : String :=
    String.mk (collapseUnderscores (replaceDisallowedRuns (trimChars filename.data)))
  let fallback := if cleaned = "" then "telegram_file" else cleaned
  if fallback.length > 180 then String.mk (fallback.data.take 180) else fallback

/-- Character class `[a-z0-9]` under the `i` flag, i.e. ASCII alphanumeric:
the extension characters accepted by `extensionFromName`. -/
def isExtensionChar (c : Char) : Bool :=
  (('a' ≤ c ∧ c ≤ 'z') ∨ ('A' ≤ c ∧ c ≤ 'Z') ∨ ('0' ≤ c ∧ c ≤ '9'))

/-- extensionFromName: the lower-cased match of `/\.([a-z0-9]{1,10})$/i`,
i.e. the all-alphanumeric suffix following the last dot when it has length
1 to 10, lower-cased; `undefined` otherwise (and on absent or empty input,
which is falsy in the guard `if (!name)` of the source). -/
def extensionFromName (name : Option String) : Option String :=
  match name with
  | none => none
  | some n =>
    if n = "" then none
    else
      let revTail := n.data.reverse.takeWhile isExtensionChar
      if 1 ≤ revTail.length ∧ revTail.length ≤ 10 ∧
          (n.data.reverse.drop revTail.length).head? = some '.' then
        some (String.mk (revTail.reverse.map Char.toLower))
      else none

/-- mimeFromExtension: table lookup of the lower-cased extension. -/
def mimeFromExtension (ext : Option String) : Option String :=
  match ext with
  | none => none
  | some e => EXTENSION_TO_MIME (lowerStr e)

/-- extensionFromMime: table lookup of the lower-cased MIME type. -/
def extensionFromMime (mime : Option String) : Option String :=
  match mime with
  | none => none
  | some m => MIME_TO_EXTENSION (lowerStr m)

/-- Processing of the Content-Type header of the download response exactly as
`inferMimeType` does: `responseMimeType?.split(";")[0]?.trim().toLowerCase()`. -/
def processedResponseMime (responseMimeType : Option String) : Option String :=
  responseMimeType.map (fun s =>
    lowerStr (String.mk (trimChars (s.data.takeWhile (fun c => c ≠ ';')))))

/-- inferMimeType: Telegram-declared mime type, else processed response
Content-Type, else extension guess from the declared filename, else
extension guess from the remote path, else a per-Telegram-type default,
else application/octet-stream. Each string candidate is used only when
truthy (non-empty), mirroring the `if (candidate)` guards of the source. -/
def inferMimeType (file : FileInfo) (responseMimeType : Option String)
    (filePath : Option String) : String :=
  let responseMime := processedResponseMime responseMimeType
  if jsTruthy file.mime_type then file.mime_type.getD ""
  else if jsTruthy responseMime then responseMime.getD ""
  else if jsTruthy (mimeFromExtension (extensionFromName file.file_name)) then
    (mimeFromExtension (extensionFromName file.file_name)).getD ""
  else if jsTruthy (mimeFromExtension (extensionFromName filePath)) then
    (mimeFromExtension (extensionFromName filePath)).getD ""
  else if file.type = "photo" then "image/jpeg"
  else if file.type = "video" ∨ file.type = "video_note" ∨ file.type = "animation" then "video/mp4"
  else if file.type = "audio" ∨ file.type = "voice" then "audio/ogg"
  else if file.type = "sticker" then "image/webp"
  else "application/octet-stream"

/-- inferFilename: declared filename (sanitized), else basename of the
remote path (sanitized), else a synthesized `{type}_{unique_id}.{ext}`
name with the extension derived from the MIME type or `bin`. -/
def inferFilename (file : FileInfo) (filePath : Option String)
    (mimeType : String) : String :=
  if jsTruthy file.file_name then sanitizeFilename (file.file_name.getD "")
  else
    let fromPath : Option String :=
      filePath.map (fun p => String.mk (p.data.reverse.takeWhile (fun c => c ≠ '/')).reverse)
    if jsTruthy fromPath then sanitizeFilename (fromPath.getD "")
    else
      let ext := (extensionFromMime (some mimeType)).getD "bin"
      sanitizeFilename (file.type ++ "_" ++ file.file_unique_id ++ "." ++ ext)

/-- NotionAttachmentBlockType union. -/
inductive NotionAttachmentBlockType where
  | image | video | audio | pdf | file
deriving Repr, DecidableEq

/-- inferNotionBlockType: MIME-prefix classification, then the pdf special
case, then Telegram-type fallbacks, then generic file. -/
def inferNotionBlockType (file : FileInfo) (mimeType : String)
    (filename : String) : NotionAttachmentBlockType :=
  let lowerMime := lowerStr mimeType
  let lowerName := lowerStr filename
  if strStartsWith lowerMime "image/" then .image
  else if strStartsWith lowerMime "video/" then .video
  else if strStartsWith lowerMime "audio/" then .audio
  else if lowerMime = "application/pdf" ∨ strEndsWith lowerName ".pdf" then .pdf
  else if file.type = "photo" then .image
  else if file.type = "video" ∨ file.type = "video_note" then .video
  else if file.type = "audio" ∨ file.type = "voice" then .audio
  else .file

/-- splitText: the empty string yields a single empty chunk; otherwise the
loop `for (i = 0; i < len; i += maxLen) push(slice(i, i + maxLen))`,
which produces ceil(len / maxLen) slices. -/
def splitText (value : String) (maxLen : Nat := 1900) : List String :=
  if value.length = 0 then [""]
  else
    (List.range ((value.length + maxLen - 1) / maxLen)).map
      (fun i => String.mk ((value.data.drop (i * maxLen)).take maxLen))

/-- toRichText: one text fragment per splitText chunk. -/
def toRichText (value : String) : List String :=
  splitText value

/-- AttachmentUploadState status union. -/
inductive UploadStatus where
  | uploaded | skipped | failed
deriving Repr, DecidableEq

/-- AttachmentUploadState record: the durable outcome for one attachment. -/
structure AttachmentUploadState where
  file_id : String
  file_unique_id : String
  type : String
  file_name : String
  mime_type : String
  size_bytes : Nat
  status : UploadStatus
  notion_file_upload_id : Option String := none
  notion_block_type : Option NotionAttachmentBlockType := none
  reason : Option String := none
deriving Repr, DecidableEq

/-- Mode field of a Notion file-upload create call. -/
inductive NotionCreateMode where
  | single_part
  | multi_part (number_of_parts : Nat)
deriving Repr, DecidableEq

/-- Notion File Upload API call, as issued by the upload client. -/
inductive NotionUploadCall where
  | create (mode : NotionCreateMode)
  | send (part_number : Option Nat)
  | complete
deriving Repr, DecidableEq

/-- One "send" call of the upload loop with the byte range it carries. -/
structure SendCall where
  bytes : List Nat
  part_number : Option Nat
deriving Repr, DecidableEq

/-- Part count of the upload client:
`Math.max(1, Math.ceil(actualSize / NOTION_SINGLE_PART_UPLOAD_BYTES))`,
with the ceiling written over naturals. -/
def numberOfPartsFor (actualSize : Nat) : Nat :=
  max 1 ((actualSize + NOTION_SINGLE_PART_UPLOAD_BYTES - 1) / NOTION_SINGLE_PART_UPLOAD_BYTES)

/-- Trace of the Notion upload client on the success path (lines issuing
the create call, the part loop and the conditional complete call): the
number of parts is `max(1, ceil(size / 20MiB))`, each part `part` sends
`payload.subarray(part*20MiB, min((part+1)*20MiB, size))` with a 1-based
part number exactly when multi-part, and a single complete call follows
exactly when multi-part. -/
def notionUploadTrace (payload : List Nat) : NotionCreateMode × List SendCall × Nat :=
  let actualSize := payload.length
  let c := NOTION_SINGLE_PART_UPLOAD_BYTES
  let numberOfParts := numberOfPartsFor actualSize
  let createMode : NotionCreateMode :=
    if numberOfParts > 1 then .multi_part numberOfParts else .single_part
  let sends : List SendCall :=
    (List.range numberOfParts).map (fun part =>
      let start := part * c
      let stop := min (start + c) actualSize
      { bytes := (payload.drop start).take (stop - start)
        part_number := if numberOfParts > 1 then some (part + 1) else none })
  (createMode, sends, if numberOfParts > 1 then 1 else 0)

/-- Environment of one `uploadTelegramFileToNotion` run: results of the
external calls it makes, in order. `getFile` is the Telegram getFile call
(`.error` = thrown Telegram API error; the payload is the optional
`file_path`). `download` is the file download (`.error s` = non-ok HTTP
status `s`; the payload is the bytes and the optional Content-Type
header). `notionCreate` is the file_uploads create call (payload = the
returned id). `notionSend part` is the send call for 0-based part `part`,
and `notionComplete` the complete call; their `.error` carries the thrown
message. `maxUploadBytes` is the value of `getMaxUploadBytes()`. -/
structure UploadOracle where
  maxUploadBytes : Nat
  getFile : Except String (Option String)
  download : Except Nat (List Nat × Option String)
  notionCreate : Except String String
  notionSend : Nat → Except String Unit
  notionComplete : Except String Unit

/-- Result of one `uploadTelegramFileToNotion` run: the ledger entry, the
optional attachment block (type, file-upload id, caption), and the list of
Notion File Upload API calls that were issued. -/
structure UploadRunResult where
  uploadState : AttachmentUploadState
  block : Option (NotionAttachmentBlockType × String × String)
  notionCalls : List NotionUploadCall
deriving Repr, DecidableEq

/-- Part-send loop of the upload client: issues sends for parts
`0 .. n-1` in order, stopping at the first thrown error. Returns the send
calls issued and the loop outcome. -/
def sendPartsLoop (o : UploadOracle) (numberOfParts : Nat) :
    Nat → List NotionUploadCall × Except String Unit
  | 0 => ([], .ok ())
  | n + 1 =>
    let part := numberOfParts - (n + 1)
    let thisCall := NotionUploadCall.send
      (if numberOfParts > 1 then some (part + 1) else none)
    match o.notionSend part with
    | .error e => ([thisCall], .error e)
    | .ok () =>
      let (calls, r) := sendPartsLoop o numberOfParts n
      (thisCall :: calls, r)

/-- uploadTelegramFileToNotion: per-attachment pipeline. Resolves the
file path via getFile, downloads the bytes, infers MIME type and
filename, applies the size check, then creates a Notion file-upload
session, sends the parts and completes multi-part sessions; every
thrown error and every failed step is converted into a ledger entry
with status failed (or skipped at the size check) — the function is
total and never propagates an error. -/
def uploadTelegramFileToNotion (o : UploadOracle) (file : FileInfo) : UploadRunResult :=
  let fallbackMime := file.mime_type.getD "application/octet-stream"
  let fallbackFileName :=
    sanitizeFilename (file.file_name.getD (file.type ++ "_" ++ file.file_unique_id))
  let baseState : UploadStatus → AttachmentUploadState := fun st =>
    { file_id := file.file_id
      file_unique_id := file.file_unique_id
      type := file.type
      file_name := fallbackFileName
      mime_type := fallbackMime
      size_bytes := file.file_size.getD 0
      status := st }
  match o.getFile with
  | .error e =>
    ⟨{ baseState .failed with reason := some e }, none, []⟩
  | .ok metaFilePath =>
    match metaFilePath with
    | none =>
      ⟨{ baseState .failed with
          reason := some "Telegram getFile did not return file_path" }, none, []⟩
    | some filePath =>
      match o.download with
      | .error status =>
        ⟨{ baseState .failed with
            reason := some ("Telegram file download failed: " ++ toString status) },
          none, []⟩
      | .ok (payload, contentType) =>
        let actualSize := payload.length
        let mimeType := inferMimeType file contentType (some filePath)
        let filename := inferFilename file (some filePath) mimeType
        if actualSize > o.maxUploadBytes then
          ⟨{ baseState .skipped with
              file_name := filename
              mime_type := mimeType
              size_bytes := actualSize
              reason := some ("File exceeds TELEGRAM_NOTION_MAX_FILE_BYTES (" ++
                toString o.maxUploadBytes ++ ")") }, none, []⟩
        else
          let numberOfParts := numberOfPartsFor actualSize
          let createMode : NotionCreateMode :=
            if numberOfParts > 1 then .multi_part numberOfParts else .single_part
          match o.notionCreate with
          | .error e =>
            ⟨{ baseState .failed with reason := some e }, none, [.create createMode]⟩
          | .ok uploadId =>
            if (trimStr uploadId).length = 0 then
              ⟨{ baseState .failed with
                  reason := some "Notion API response missing file_upload.id" },
                none, [.create createMode]⟩
            else
              match sendPartsLoop o numberOfParts numberOfParts with
              | (sendCalls, .error e) =>
                ⟨{ baseState .failed with reason := some e }, none,
                  .create createMode :: sendCalls⟩
              | (sendCalls, .ok ()) =>
                if numberOfParts > 1 then
                  match o.notionComplete with
                  | .error e =>
                    ⟨{ baseState .failed with reason := some e }, none,
                      .create createMode :: sendCalls ++ [.complete]⟩
                  | .ok () =>
                    let blockType := inferNotionBlockType file mimeType filename
                    ⟨{ baseState .uploaded with
                        file_name := filename
                        mime_type := mimeType
                        size_bytes := actualSize
                        notion_file_upload_id := some uploadId
                        notion_block_type := some blockType },
                      some (blockType, uploadId,
                        filename ++ " (" ++ file.type ++ ", " ++ toString actualSize ++ " bytes)"),
                      .create createMode :: sendCalls ++ [.complete]⟩
                else
                  let blockType := inferNotionBlockType file mimeType filename
                  ⟨{ baseState .uploaded with
                      file_name := filename
                      mime_type := mimeType
                      size_bytes := actualSize
                      notion_file_upload_id := some uploadId
                      notion_block_type := some blockType },
                    some (blockType, uploadId,
                      filename ++ " (" ++ file.type ++ ", " ++ toString actualSize ++ " bytes)"),
                    .create createMode :: sendCalls⟩

/-- Attachment loop of the webhook handler: one upload run per extracted
file, ledger entries pushed in input order, blocks collected for the
files that produced one. The per-file oracle gives each file its own
external-world responses. -/
def processAttachments (env : FileInfo → UploadOracle) (files : List FileInfo) :
    List AttachmentUploadState × List (NotionAttachmentBlockType × String × String) :=
  (files.map (fun f => (uploadTelegramFileToNotion (env f) f).uploadState),
   files.filterMap (fun f => (uploadTelegramFileToNotion (env f) f).block))

/-- HTTP response as produced by the handler. -/
structure HttpResponse where
  status : Nat
  ok : Bool
  error : Option String := none
deriving Repr, DecidableEq

/-- Environment of the handler tail (everything after `pages.create`
succeeded): per-file upload oracles, the ledger block append
(`appendBlocksViaClient`), the attachment-block append
(`appendBlocksViaNotionApi`), the fallback error-note append, and the
`setMessageReaction` fetch. Each `.error` is a thrown exception. -/
structure HandlerTailOracle where
  perFile : FileInfo → UploadOracle
  ledgerAppend : Except String Unit
  attachmentBlocksAppend : Except String Unit
  fallbackAppend : Except String Unit
  reaction : Except String Unit

/-- Control flow of the webhook handler after page creation, inside the
outer try block: when there are files, run the attachment loop, append
the ledger block (a thrown error propagates), then — only when some
blocks were produced — try the attachment-block append and recover its
failure by appending a fallback error-note block (whose own failure
propagates); finally fire the reaction call (a thrown error propagates). -/
def handlerTailRun (o : HandlerTailOracle) (files : List FileInfo) :
    Except String Unit :=
  let attachmentPhase : Except String Unit :=
    if files.length > 0 then
      let uploadedBlocks := (processAttachments o.perFile files).2
      match o.ledgerAppend with
      | .error e => .error e
      | .ok () =>
        if uploadedBlocks.length > 0 then
          match o.attachmentBlocksAppend with
          | .ok () => .ok ()
          | .error _ => o.fallbackAppend
        else .ok ()
    else .ok ()
  match attachmentPhase with
  | .error e => .error e
  | .ok () => o.reaction

/-- HTTP outcome of the handler from the point where the page has been
created: the catch block maps a propagated error to status 500 with
`ok: false`, otherwise the handler replies with the default status 200
and `{ok: true}`. -/
def handlerAfterPageCreated (o : HandlerTailOracle) (files : List FileInfo) :
    HttpResponse :=
  match handlerTailRun o files with
  | .ok () => { status := 200, ok := true }
  | .error e => { status := 500, ok := false, error := some e }

/-- Difference accumulator of timingSafeStringEquals: the XOR of the two
lengths, OR-folded with the XOR of each byte pair for indices
`0 .. max(len_a, len_b) - 1`, a missing byte reading as 0
(embeds the `diff |= (aBytes[i] ?? 0) ^ (bBytes[i] ?? 0)` loop on
`TextEncoder`-encoded byte strings). -/
def timingSafeDiff (a b : List Nat) : Nat :=
  (List.range (max a.length b.length)).foldl
    (fun diff i => diff ||| ((a.getD i 0) ^^^ (b.getD i 0)))
    (a.length ^^^ b.length)

/-- timingSafeStringEquals: constant-time byte comparison of the two
encoded strings — true exactly when the accumulated difference is zero. -/
def timingSafeStringEquals (a b : List Nat) : Bool :=
  timingSafeDiff a b = 0

/-- isTrueEnvFlag: false on an absent or empty value, else a full
case-insensitive match of the trimmed value against 1/true/yes/on. -/
def isTrueEnvFlag (value : Option String) : Bool :=
  match value with
  | none => false
  | some v =>
    if v = "" then false
    else lowerStr (trimStr v) = "1" ∨ lowerStr (trimStr v) = "true" ∨
      lowerStr (trimStr v) = "yes" ∨ lowerStr (trimStr v) = "on"

/-- JavaScript falsiness of an optional byte string (absent or empty). -/
def jsFalsyBytes (s : Option (List Nat)) : Bool :=
  match s with
  | none => true
  | some v => v.isEmpty

/-- isAuthorizedTelegramWebhookRequest: a request is authorized when
enforcement is off, or no secret is configured, or the header is present
and matches the configured secret in constant time. The expected secret
is the `TELEGRAM_WEBHOOK_SECRET_TOKEN` environment value, passed here
explicitly. -/
def isAuthorizedTelegramWebhookRequest (secretHeader : Option (List Nat))
    (requireSecret : Bool) (expectedSecret : Option (List Nat)) : Bool :=
  if ¬ requireSecret then true
  else if jsFalsyBytes expectedSecret then true
  else if jsFalsyBytes secretHeader then false
  else timingSafeStringEquals (secretHeader.getD []) (expectedSecret.getD [])

/-- Outcome of the secret gate of the webhook handler. -/
inductive SecretGateOutcome where
  | misconfigured500
  | unauthorized401
  | processed
deriving Repr, DecidableEq

/-- Secret gate of the webhook handler: compute `requireSecret` from the
enforcement flag, answer 500 when enforcement is on without a configured
secret, 401 when `isAuthorizedTelegramWebhookRequest` rejects, and
continue processing otherwise. -/
def webhookSecretGate (requireSecretFlag : Option String)
    (expectedSecret : Option (List Nat)) (secretHeader : Option (List Nat)) :
    SecretGateOutcome :=
  let requireSecret := isTrueEnvFlag requireSecretFlag
  if requireSecret ∧ jsFalsyBytes expectedSecret then .misconfigured500
  else if ¬ isAuthorizedTelegramWebhookRequest secretHeader requireSecret expectedSecret then
    .unauthorized401
  else .processed

/-- Dedupe query filter built by `hasExistingTelegramPage`:
either one number-equals filter on the Update-ID property, or the
conjunction of number-equals filters on the Chat-ID and Message-ID
properties. -/
inductive DedupeFilter where
  | updateIdEquals (prop : String) (value : Int)
  | chatAndMessageEquals (chatProp : String) (chatId : Int)
      (messageProp : String) (messageId : Int)
deriving Repr, DecidableEq

/-- Filter selection of `hasExistingTelegramPage`: prefer the Update-ID
filter when that property resolved (a truthy name) and the update id is
present; otherwise use the Chat-ID + Message-ID conjunction when both
properties resolved; otherwise no filter. -/
def dedupeFilterFor (updateIdProp : Option String) (updateId : Option Int)
    (chatIdProp : Option String) (chatId : Int)
    (messageIdProp : Option String) (messageId : Int) : Option DedupeFilter :=
  if jsTruthy updateIdProp ∧ updateId ≠ none then
    some (.updateIdEquals (updateIdProp.getD "") (updateId.getD 0))
  else if jsTruthy chatIdProp ∧ jsTruthy messageIdProp then
    some (.chatAndMessageEquals (chatIdProp.getD "") chatId (messageIdProp.getD "") messageId)
  else none

/-- hasExistingTelegramPage: false without a filter, else the result of
the database query (modelled by the `queryHasResult` oracle: whether the
query on the given filter returns at least one row). -/
def hasExistingTelegramPage (queryHasResult : DedupeFilter → Bool)
    (updateIdProp : Option String) (updateId : Option Int)
    (chatIdProp : Option String) (chatId : Int)
    (messageIdProp : Option String) (messageId : Int) : Bool :=
  match dedupeFilterFor updateIdProp updateId chatIdProp chatId messageIdProp messageId with
  | none => false
  | some filter => queryHasResult filter

/-- Dedupe step of the webhook handler: when `hasExistingTelegramPage`
answers true the handler replies 200 `{ok: true}` immediately and
`pages.create` is never called; otherwise it proceeds to create the page. -/
def handlerDedupeStep (queryHasResult : DedupeFilter → Bool)
    (updateIdProp : Option String) (updateId : Option Int)
    (chatIdProp : Option String) (chatId : Int)
    (messageIdProp : Option String) (messageId : Int) :
    Option HttpResponse × Bool :=
  if hasExistingTelegramPage queryHasResult updateIdProp updateId
      chatIdProp chatId messageIdProp messageId then
    (some { status := 200, ok := true }, false)
  else
    (none, true)

/-- JavaScript number as produced by `Number(...)`: NaN, an infinity, or
an exact finite value (rational; every finite double is rational). -/
inductive JSNum where
  | nan
  | inf
  | negInf
  | num (q : ℚ)
deriving DecidableEq

/-- Number.isFinite. -/
def jsIsFinite : JSNum → Bool
  | .num _ => true
  | _ => false

/-- getMaxUploadBytes: the floor of the configured value when it is
finite and strictly positive, else the 100 MiB default. The argument is
the result of `Number(process.env.TELEGRAM_NOTION_MAX_FILE_BYTES)`
(NaN when the variable is unset or non-numeric). -/
def getMaxUploadBytes (configured : JSNum) : ℤ :=
  match configured with
  | .num q =>
    if 0 < q then ⌊q⌋ else (DEFAULT_TELEGRAM_NOTION_MAX_FILE_BYTES : ℤ)
  | _ => (DEFAULT_TELEGRAM_NOTION_MAX_FILE_BYTES : ℤ)

/-- Modelled from the claim wording of C8, for comparison with
`getMaxUploadBytes`: the configured value when it is a positive integer,
the default in every other case. -/
def claimMaxUploadBytes (configured : JSNum) : ℤ :=
  match configured with
  | .num q =>
    if 0 < q ∧ q.den = 1 then q.num else (DEFAULT_TELEGRAM_NOTION_MAX_FILE_BYTES : ℤ)
  | _ => (DEFAULT_TELEGRAM_NOTION_MAX_FILE_BYTES : ℤ)

/-- MIME candidate list in the priority order stated by the spec: the
Telegram-declared mime type, the processed response Content-Type, the
extension guess from the declared filename, the extension guess from the
remote path, the per-Telegram-type default, application/octet-stream. -/
def specMimeCandidates (file : FileInfo) (responseMimeType : Option String)
    (filePath : Option String) : List (Option String) :=
  [file.mime_type,
   processedResponseMime responseMimeType,
   mimeFromExtension (extensionFromName file.file_name),
   mimeFromExtension (extensionFromName filePath),
   (if file.type = "photo" then some "image/jpeg"
    else if file.type = "video" ∨ file.type = "video_note" ∨ file.type = "animation" then
      some "video/mp4"
    else if file.type = "audio" ∨ file.type = "voice" then some "audio/ogg"
    else if file.type = "sticker" then some "image/webp"
    else none),
   some "application/octet-stream"]

/-- Modelled from the claim wording of C7: the first defined value of a
candidate list ("" counts as defined). -/
def firstDefined : List (Option String) → String
  | [] => ""
  | none :: rest => firstDefined rest
  | some v :: _ => v

/-- Amended selection for C7: the first defined and non-empty value of a
candidate list. -/
def firstTruthy : List (Option String) → String
  | [] => ""
  | c :: rest => if jsTruthy c then c.getD "" else firstTruthy rest

/-! Concrete sample inputs used by witnesses and counterexamples. -/

/-- Sample attachment with no declared filename or MIME type. -/
def sampleFile : FileInfo :=
  { file_id := "f1", file_unique_id := "u1", type := "document" }

/-- Oracle whose getFile call throws. -/
def oracleGetFileError : UploadOracle :=
  { maxUploadBytes := 10, getFile := .error "getFile boom", download := .error 0,
    notionCreate := .error "unused", notionSend := fun _ => .ok (),
    notionComplete := .ok () }

/-- Oracle whose getFile call returns no file_path. -/
def oracleNoFilePath : UploadOracle :=
  { oracleGetFileError with getFile := .ok none }

/-- Oracle whose download returns HTTP 404. -/
def oracleDownloadError : UploadOracle :=
  { oracleGetFileError with
    getFile := .ok (some "documents/file.bin"),
    download := .error 404 }

/-- Oracle whose Notion create call throws. -/
def oracleCreateError : UploadOracle :=
  { maxUploadBytes := 10, getFile := .ok (some "documents/file.bin"),
    download := .ok ([1, 2, 3], none), notionCreate := .error "create boom",
    notionSend := fun _ => .ok (), notionComplete := .ok () }

/-- Oracle whose Notion send call throws. -/
def oracleSendError : UploadOracle :=
  { oracleCreateError with
    notionCreate := .ok "fu1",
    notionSend := fun _ => .error "send boom" }

/-- Oracle delivering a buffer one byte over 20 MiB whose complete call
throws. -/
def oracleCompleteError : UploadOracle :=
  { maxUploadBytes := NOTION_SINGLE_PART_UPLOAD_BYTES + 1,
    getFile := .ok (some "documents/file.bin"),
    download := .ok (List.replicate (NOTION_SINGLE_PART_UPLOAD_BYTES + 1) 0, none),
    notionCreate := .ok "fu1", notionSend := fun _ => .ok (),
    notionComplete := .error "complete boom" }

/-- Oracle delivering a 3-byte buffer with the maximum set to exactly 3. -/
def oracleAtLimit : UploadOracle :=
  { maxUploadBytes := 3, getFile := .ok (some "documents/file.bin"),
    download := .ok ([1, 2, 3], none), notionCreate := .ok "fu1",
    notionSend := fun _ => .ok (), notionComplete := .ok () }

/-- Oracle delivering a 3-byte buffer with the maximum set to 2. -/
def oracleOverLimit : UploadOracle :=
  { oracleAtLimit with maxUploadBytes := 2 }

/-- Handler-tail oracle whose ledger append throws. -/
def tailOracleLedgerError : HandlerTailOracle :=
  { perFile := fun _ => oracleAtLimit, ledgerAppend := .error "ledger append boom",
    attachmentBlocksAppend := .ok (), fallbackAppend := .ok (), reaction := .ok () }

/-- Handler-tail oracle whose attachment-block append throws but whose
other calls succeed. -/
def tailOracleBlocksError : HandlerTailOracle :=
  { perFile := fun _ => oracleAtLimit, ledgerAppend := .ok (),
    attachmentBlocksAppend := .error "blocks append boom",
    fallbackAppend := .ok (), reaction := .ok () }

/-- Attachment whose Telegram metadata declares an empty mime_type. -/
def emptyMimeFile : FileInfo :=
  { file_id := "f2", file_unique_id := "u2", mime_type := some "", type := "document" }

/-! Helper lemmas. -/

/-- Every character emitted by the replacement pass lies in the allowed
filename class (replaced runs become underscores, which are allowed). -/
lemma replaceDisallowedRuns_allowed (l : List Char) :
    ∀ c ∈ replaceDisallowedRuns l, isFilenameChar c := by
  induction l using replaceDisallowedRuns.induct with
  | case1 =>
    intro c hc
    simp [replaceDisallowedRuns] at hc
  | case2 a rest ha ih =>
    intro c hc
    rw [replaceDisallowedRuns, if_pos ha] at hc
    rcases List.mem_cons.mp hc with rfl | h
    · exact ha
    · exact ih c h
  | case3 a rest ha ih =>
    intro c hc
    rw [replaceDisallowedRuns, if_neg ha] at hc
    rcases List.mem_cons.mp hc with rfl | h
    · decide
    · exact ih c h

/-- The underscore-collapsing pass preserves membership in the allowed
filename class. -/
lemma collapseUnderscores_allowed (l : List Char)
    (hl : ∀ c ∈ l, isFilenameChar c) :
    ∀ c ∈ collapseUnderscores l, isFilenameChar c := by
  induction l using collapseUnderscores.induct with
  | case1 =>
    intro c hc
    simp [collapseUnderscores] at hc
  | case2 rest ih =>
    intro c hc
    rw [collapseUnderscores, if_pos rfl] at hc
    rcases List.mem_cons.mp hc with rfl | h
    · decide
    · exact ih
        (fun d hd => hl d (List.mem_cons_of_mem _ ((List.dropWhile_sublist _).subset hd)))
        c h
  | case3 a rest ha ih =>
    intro c hc
    rw [collapseUnderscores, if_neg ha] at hc
    rcases List.mem_cons.mp hc with rfl | h
    · exact hl c (List.mem_cons_self c rest)
    · exact ih (fun d hd => hl d (List.mem_cons_of_mem _ hd)) c h

/-- Character-list view of the sanitized name before truncation. -/
lemma sanitizeFilename_eq (s : String) :
    sanitizeFilename s =
      (let fallback :=
        if String.mk (collapseUnderscores (replaceDisallowedRuns (trimChars s.data))) = ""
        then "telegram_file"
        else String.mk (collapseUnderscores (replaceDisallowedRuns (trimChars s.data)))
      if fallback.length > 180 then String.mk (fallback.data.take 180) else fallback) := rfl

/-- C9: for every input string, `sanitizeFilename` returns a non-empty
string of at most 180 characters consisting only of characters from
`[A-Za-z0-9._-]`, computed by trimming, replacing runs of characters
outside the class with single underscores, collapsing repeated
underscores, substituting the fixed fallback name when empty, and
truncating to 180 characters keeping the head. -/
theorem sanitizeFilename_nonempty_bounded_charset (s : String) :
    sanitizeFilename s ≠ "" ∧ (sanitizeFilename s).length ≤ 180 ∧
    (sanitizeFilename s).data.all isFilenameChar = true := by
  rw [sanitizeFilename_eq]
  set cleaned : String :=
    String.mk (collapseUnderscores (replaceDisallowedRuns (trimChars s.data))) with hcl
  have hall : ∀ c ∈ cleaned.data, isFilenameChar c := by
    intro c hc
    exact collapseUnderscores_allowed _ (replaceDisallowedRuns_allowed _) c hc
  set fallback : String := if cleaned = "" then "telegram_file" else cleaned with hfb
  have hfall : ∀ c ∈ fallback.data, isFilenameChar c := by
    intro c hc
    rw [hfb] at hc
    by_cases h : cleaned = ""
    · rw [if_pos h] at hc
      fin_cases hc <;> decide
    · rw [if_neg h] at hc
      exact hall c hc
  have hfne : fallback.data ≠ [] := by
    rw [hfb]
    by_cases h : cleaned = ""
    · rw [if_pos h]
      decide
    · rw [if_neg h]
      intro hnil
      exact h (String.ext hnil)
  have hlen : fallback.length = fallback.data.length := rfl
  by_cases hbig : fallback.length > 180
  · rw [if_pos hbig]
    refine ⟨?_, ?_, ?_⟩
    · intro h
      have hd : fallback.data.take 180 = [] := congrArg String.data h
      have : (fallback.data.take 180).length = 0 := by rw [hd]; rfl
      rw [List.length_take] at this
      omega
    · show (fallback.data.take 180).length ≤ 180
      rw [List.length_take]
      omega
    · rw [List.all_eq_true]
      intro c hc
      exact hfall c (List.take_subset _ _ hc)
  · rw [if_neg hbig]
    refine ⟨?_, by omega, ?_⟩
    · intro h
      apply hfne
      rw [h]
    · rw [List.all_eq_true]
      intro c hc
      exact hfall c hc

/-- Concatenating the `n` aligned chunks of width `c` recovers the first
`n * c` elements of the list. -/
lemma join_aligned_chunks {α : Type} (l : List α) (c n : Nat) :
    ((List.range n).map (fun i => (l.drop (i * c)).take c)).flatten = l.take (n * c) := by
  induction n with
  | zero => simp
  | succ n ih =>
    rw [List.range_succ, List.map_append, List.flatten_append, ih]
    rw [Nat.succ_mul, List.take_add l (n * c) c]
    simp

/-- The total size never exceeds the part count times the part width. -/
lemma size_le_numberOfParts_mul (S : Nat) :
    S ≤ numberOfPartsFor S * NOTION_SINGLE_PART_UPLOAD_BYTES := by
  simp only [numberOfPartsFor, NOTION_SINGLE_PART_UPLOAD_BYTES]
  omega

/-- The part count is 1 exactly on sizes up to the single-part limit. -/
lemma numberOfPartsFor_eq_one_iff (S : Nat) :
    numberOfPartsFor S = 1 ↔ S ≤ NOTION_SINGLE_PART_UPLOAD_BYTES := by
  simp only [numberOfPartsFor, NOTION_SINGLE_PART_UPLOAD_BYTES]
  omega

/-- C10: for every string, `splitText` returns a non-empty list of chunks
of at most 1900 characters each whose character-level concatenation is the
original string, and the empty string yields the single empty chunk. -/
theorem splitText_chunks_partition (s : String) :
    splitText s ≠ [] ∧
    (splitText s).all (fun chunk => chunk.length ≤ 1900) = true ∧
    ((splitText s).map String.data).flatten = s.data ∧
    splitText "" = [""] := by
  refine ⟨?_, ?_, ?_, rfl⟩
  · rw [splitText]
    by_cases h : s.length = 0
    · rw [if_pos h]
      simp
    · rw [if_neg h]
      intro hnil
      have := congrArg List.length hnil
      simp at this
      omega
  · rw [splitText]
    by_cases h : s.length = 0
    · rw [if_pos h]
      decide
    · rw [if_neg h]
      rw [List.all_eq_true]
      intro chunk hc
      rw [List.mem_map] at hc
      obtain ⟨i, _, rfl⟩ := hc
      rw [decide_eq_true_eq]
      show ((s.data.drop (i * 1900)).take 1900).length ≤ 1900
      rw [List.length_take]
      omega
  · rw [splitText]
    by_cases h : s.length = 0
    · rw [if_pos h]
      have : s.data = [] := List.length_eq_zero.mp h
      simp [this]
    · rw [if_neg h]
      rw [List.map_map]
      have hmk : (String.data ∘ fun i => String.mk ((s.data.drop (i * 1900)).take 1900)) =
          (fun i => (s.data.drop (i * 1900)).take 1900) := rfl
      rw [hmk, join_aligned_chunks]
      apply List.take_of_length_le
      have hlen : s.length = s.data.length := rfl
      rw [← hlen]
      omega

/-- The clamped slice width `min(start + c, len) - start` used by
`subarray` gives the same slice as an unclamped width of `c`. -/
lemma take_min_sub {α : Type} (l : List α) (start c : Nat) :
    (l.drop start).take (min (start + c) l.length - start) = (l.drop start).take c := by
  rcases le_total (start + c) l.length with h | h
  · rw [Nat.min_eq_left h]
    congr 1
    omega
  · rw [Nat.min_eq_right h]
    rcases le_total start l.length with h2 | h2
    · have e1 : (l.drop start).take (l.length - start) = l.drop start :=
        List.take_of_length_le (by rw [List.length_drop])
      have e2 : (l.drop start).take c = l.drop start :=
        List.take_of_length_le (by rw [List.length_drop]; omega)
      rw [e1, e2]
    · rw [List.drop_eq_nil_of_le h2]
      simp

/-- C1: on every downloaded buffer the upload client computes
`numberOfParts = max(1, ceil(size / 20MiB))`; the sent byte ranges are the
20 MiB-aligned slices whose concatenation is the original buffer; when the
buffer exceeds 20 MiB it creates a `multi_part` session, issues
`numberOfParts` send calls carrying 1-based part numbers `1..N`, and one
complete call; when the buffer is at most 20 MiB (including empty) it
creates a `single_part` session, issues exactly one send call with no
part number, and no complete call. -/
theorem notionUploadTrace_partition (payload : List Nat) :
    (notionUploadTrace payload).2.1.length = numberOfPartsFor payload.length ∧
    (((notionUploadTrace payload).2.1.map SendCall.bytes).flatten = payload) ∧
    (NOTION_SINGLE_PART_UPLOAD_BYTES < payload.length →
      (notionUploadTrace payload).1 =
        NotionCreateMode.multi_part (numberOfPartsFor payload.length) ∧
      (notionUploadTrace payload).2.2 = 1 ∧
      (notionUploadTrace payload).2.1.map SendCall.part_number =
        (List.range (numberOfPartsFor payload.length)).map (fun i => some (i + 1))) ∧
    (payload.length ≤ NOTION_SINGLE_PART_UPLOAD_BYTES →
      numberOfPartsFor payload.length = 1 ∧
      (notionUploadTrace payload).1 = NotionCreateMode.single_part ∧
      (notionUploadTrace payload).2.2 = 0 ∧
      (notionUploadTrace payload).2.1.map SendCall.part_number = [none]) := by
  have hone := numberOfPartsFor_eq_one_iff payload.length
  have hge : 1 ≤ numberOfPartsFor payload.length := le_max_left 1 _
  refine ⟨?_, ?_, ?_, ?_⟩
  · simp [notionUploadTrace]
  · simp only [notionUploadTrace, List.map_map]
    have hmk : (SendCall.bytes ∘ fun part =>
        { bytes := (payload.drop (part * NOTION_SINGLE_PART_UPLOAD_BYTES)).take
            (min (part * NOTION_SINGLE_PART_UPLOAD_BYTES + NOTION_SINGLE_PART_UPLOAD_BYTES)
              payload.length - part * NOTION_SINGLE_PART_UPLOAD_BYTES)
          part_number := if numberOfPartsFor payload.length > 1
            then some (part + 1) else none : SendCall }) =
        (fun part => (payload.drop (part * NOTION_SINGLE_PART_UPLOAD_BYTES)).take
          NOTION_SINGLE_PART_UPLOAD_BYTES) := by
      funext part
      exact take_min_sub payload (part * NOTION_SINGLE_PART_UPLOAD_BYTES)
        NOTION_SINGLE_PART_UPLOAD_BYTES
    rw [hmk, join_aligned_chunks]
    exact List.take_of_length_le (size_le_numberOfParts_mul payload.length)
  · intro hbig
    have hn : numberOfPartsFor payload.length > 1 := by
      rcases Nat.lt_or_ge 1 (numberOfPartsFor payload.length) with h | h
      · exact h
      · exact absurd (hone.mp (by omega)) (by omega)
    refine ⟨?_, ?_, ?_⟩
    · simp [notionUploadTrace, if_pos hn]
    · simp [notionUploadTrace, if_pos hn]
    · simp only [notionUploadTrace, List.map_map]
      apply List.map_congr_left
      intro part _
      simp [hn]
  · intro hsmall
    have hn : numberOfPartsFor payload.length = 1 := hone.mpr hsmall
    refine ⟨hn, ?_, ?_, ?_⟩
    · simp [notionUploadTrace, hn]
    · simp [notionUploadTrace, hn]
    · simp [notionUploadTrace, hn, List.range_succ]

/-- Witness for C1: a buffer one byte over the 20 MiB limit takes the
multi-part branch with one complete call, and the empty buffer takes the
single-part branch with none. -/
theorem notionUploadTrace_partition_witness :
    (notionUploadTrace (List.replicate (NOTION_SINGLE_PART_UPLOAD_BYTES + 1) 0)).2.2 = 1 ∧
    (notionUploadTrace ([] : List Nat)).2.2 = 0 :=
  ⟨((notionUploadTrace_partition
      (List.replicate (NOTION_SINGLE_PART_UPLOAD_BYTES + 1) 0)).2.2.1 (by simp)).2.1,
   ((notionUploadTrace_partition ([] : List Nat)).2.2.2 (by simp)).2.2.1⟩

/-- C2: the orchestrator produces exactly one ledger entry per extracted
file in input order (one entry per file, a bad head file leaves the
sibling entries intact), the status of each entry is one of uploaded, skipped
or failed, and each failing external step — getFile, the download, or any
Notion create/send/complete call — is captured as a failed entry with a
reason instead of propagating. -/
theorem processAttachments_ledger_invariant
    (env : FileInfo → UploadOracle) (files : List FileInfo)
    (o : UploadOracle) (f : FileInfo) :
    (processAttachments env files).1.length = files.length ∧
    (processAttachments env files).1.all
      (fun st => st.status = UploadStatus.uploaded ∨ st.status = UploadStatus.skipped ∨
        st.status = UploadStatus.failed) = true ∧
    (processAttachments env (f :: files)).1 =
      (uploadTelegramFileToNotion (env f) f).uploadState :: (processAttachments env files).1 ∧
    (∀ e, o.getFile = .error e →
      (uploadTelegramFileToNotion o f).uploadState.status = UploadStatus.failed ∧
      (uploadTelegramFileToNotion o f).uploadState.reason = some e) ∧
    (o.getFile = .ok none →
      (uploadTelegramFileToNotion o f).uploadState.status = UploadStatus.failed ∧
      (uploadTelegramFileToNotion o f).uploadState.reason =
        some "Telegram getFile did not return file_path") ∧
    (∀ p st, o.getFile = .ok (some p) → o.download = .error st →
      (uploadTelegramFileToNotion o f).uploadState.status = UploadStatus.failed ∧
      (uploadTelegramFileToNotion o f).uploadState.reason =
        some ("Telegram file download failed: " ++ toString st)) ∧
    (∀ p payload ct e, o.getFile = .ok (some p) → o.download = .ok (payload, ct) →
      payload.length ≤ o.maxUploadBytes → o.notionCreate = .error e →
      (uploadTelegramFileToNotion o f).uploadState.status = UploadStatus.failed ∧
      (uploadTelegramFileToNotion o f).uploadState.reason = some e) ∧
    (∀ p payload ct uid n calls e, o.getFile = .ok (some p) →
      o.download = .ok (payload, ct) → payload.length ≤ o.maxUploadBytes →
      o.notionCreate = .ok uid → (trimStr uid).length ≠ 0 →
      numberOfPartsFor payload.length = n → sendPartsLoop o n n = (calls, .error e) →
      (uploadTelegramFileToNotion o f).uploadState.status = UploadStatus.failed ∧
      (uploadTelegramFileToNotion o f).uploadState.reason = some e) ∧
    (∀ p payload ct uid n calls e, o.getFile = .ok (some p) →
      o.download = .ok (payload, ct) → payload.length ≤ o.maxUploadBytes →
      o.notionCreate = .ok uid → (trimStr uid).length ≠ 0 →
      numberOfPartsFor payload.length = n → sendPartsLoop o n n = (calls, .ok ()) →
      1 < n → o.notionComplete = .error e →
      (uploadTelegramFileToNotion o f).uploadState.status = UploadStatus.failed ∧
      (uploadTelegramFileToNotion o f).uploadState.reason = some e) := by
  refine ⟨?_, ?_, ?_, ?_, ?_, ?_, ?_, ?_, ?_⟩
  · simp [processAttachments]
  · rw [List.all_eq_true]
    intro st hst
    rw [decide_eq_true_eq]
    cases h : st.status
    · exact Or.inl rfl
    · exact Or.inr (Or.inl rfl)
    · exact Or.inr (Or.inr rfl)
  · simp [processAttachments]
  · intro e hg
    simp [uploadTelegramFileToNotion, hg]
  · intro hg
    simp [uploadTelegramFileToNotion, hg]
  · intro p st hg hd
    simp [uploadTelegramFileToNotion, hg, hd]
  · intro p payload ct e hg hd hsize hc
    simp [uploadTelegramFileToNotion, hg, hd, hc, Nat.not_lt.mpr hsize]
  · intro p payload ct uid n calls e hg hd hsize hc hid hn hsend
    subst hn
    simp [uploadTelegramFileToNotion, hg, hd, hc, hid, hsend, Nat.not_lt.mpr hsize]
  · intro p payload ct uid n calls e hg hd hsize hc hid hn hsend hmulti hcomp
    subst hn
    simp [uploadTelegramFileToNotion, hg, hd, hc, hid, hsend, hcomp,
      Nat.not_lt.mpr hsize, hmulti]

/-- Witness for C2: each failing external step of the pipeline — getFile,
download, create, send, complete — yields a failed ledger entry on a
concrete oracle. -/
theorem processAttachments_ledger_invariant_witness :
    (uploadTelegramFileToNotion oracleGetFileError sampleFile).uploadState.status =
      UploadStatus.failed ∧
    (uploadTelegramFileToNotion oracleNoFilePath sampleFile).uploadState.status =
      UploadStatus.failed ∧
    (uploadTelegramFileToNotion oracleDownloadError sampleFile).uploadState.status =
      UploadStatus.failed ∧
    (uploadTelegramFileToNotion oracleCreateError sampleFile).uploadState.status =
      UploadStatus.failed ∧
    (uploadTelegramFileToNotion oracleSendError sampleFile).uploadState.status =
      UploadStatus.failed ∧
    (uploadTelegramFileToNotion oracleCompleteError sampleFile).uploadState.status =
      UploadStatus.failed :=
  ⟨((processAttachments_ledger_invariant (fun _ => oracleGetFileError) []
      oracleGetFileError sampleFile).2.2.2.1 "getFile boom" rfl).1,
   ((processAttachments_ledger_invariant (fun _ => oracleNoFilePath) []
      oracleNoFilePath sampleFile).2.2.2.2.1 rfl).1,
   ((processAttachments_ledger_invariant (fun _ => oracleDownloadError) []
      oracleDownloadError sampleFile).2.2.2.2.2.1 "documents/file.bin" 404 rfl rfl).1,
   ((processAttachments_ledger_invariant (fun _ => oracleCreateError) []
      oracleCreateError sampleFile).2.2.2.2.2.2.1 "documents/file.bin" [1, 2, 3] none
      "create boom" rfl rfl (by decide) rfl).1,
   ((processAttachments_ledger_invariant (fun _ => oracleSendError) []
      oracleSendError sampleFile).2.2.2.2.2.2.2.1 "documents/file.bin" [1, 2, 3] none
      "fu1" 1 [.send none] "send boom" rfl rfl (by decide) rfl (by decide)
      (by decide) rfl).1,
   ((processAttachments_ledger_invariant (fun _ => oracleCompleteError) []
      oracleCompleteError sampleFile).2.2.2.2.2.2.2.2 "documents/file.bin"
      (List.replicate (NOTION_SINGLE_PART_UPLOAD_BYTES + 1) 0) none
      "fu1" 2 [.send (some 1), .send (some 2)] "complete boom" rfl rfl
      (by rw [List.length_replicate]; exact Nat.le.refl) rfl (by decide)
      (by rw [List.length_replicate]; decide) rfl
      (by decide) rfl).1⟩

/-- C3: when the byte length of a downloaded buffer equals the configured
maximum, the size check passes and a Notion file-upload session create
call is issued; when it exceeds the maximum by at least one byte, the
ledger entry is skipped with a reason citing the configured maximum byte
value and no Notion call of any kind is issued. -/
theorem uploadSizeCheck_boundary (o : UploadOracle) (f : FileInfo) (p : String)
    (payload : List Nat) (ct : Option String)
    (hg : o.getFile = .ok (some p)) (hd : o.download = .ok (payload, ct)) :
    (payload.length = o.maxUploadBytes →
      (uploadTelegramFileToNotion o f).notionCalls.head? =
        some (NotionUploadCall.create
          (if 1 < numberOfPartsFor payload.length then
            NotionCreateMode.multi_part (numberOfPartsFor payload.length)
          else NotionCreateMode.single_part))) ∧
    (o.maxUploadBytes < payload.length →
      (uploadTelegramFileToNotion o f).uploadState.status = UploadStatus.skipped ∧
      (uploadTelegramFileToNotion o f).uploadState.reason =
        some ("File exceeds TELEGRAM_NOTION_MAX_FILE_BYTES (" ++
          toString o.maxUploadBytes ++ ")") ∧
      (uploadTelegramFileToNotion o f).notionCalls = []) := by
  constructor
  · intro hsize
    have hnot : ¬ payload.length > o.maxUploadBytes := by omega
    cases hc : o.notionCreate with
    | error e =>
      simp [uploadTelegramFileToNotion, hg, hd, hnot, hc]
    | ok uid =>
      by_cases hid : (trimStr uid).length = 0
      · simp [uploadTelegramFileToNotion, hg, hd, hnot, hc, hid]
      · rcases hsp : sendPartsLoop o (numberOfPartsFor payload.length)
            (numberOfPartsFor payload.length) with ⟨calls, r⟩
        cases r with
        | error e =>
          simp [uploadTelegramFileToNotion, hg, hd, hnot, hc, hid, hsp]
        | ok u =>
          by_cases hm : 1 < numberOfPartsFor payload.length
          · cases hcomp : o.notionComplete with
            | error e =>
              simp [uploadTelegramFileToNotion, hg, hd, hnot, hc, hid, hsp, hm, hcomp]
            | ok u2 =>
              simp [uploadTelegramFileToNotion, hg, hd, hnot, hc, hid, hsp, hm, hcomp]
          · simp [uploadTelegramFileToNotion, hg, hd, hnot, hc, hid, hsp, hm]
  · intro hover
    simp [uploadTelegramFileToNotion, hg, hd, hover]

/-- Witness for C3: a 3-byte buffer against a 3-byte maximum issues the
create call, and against a 2-byte maximum is skipped with the reason
citing the maximum and no Notion calls. -/
theorem uploadSizeCheck_boundary_witness :
    (uploadTelegramFileToNotion oracleAtLimit sampleFile).notionCalls.head? =
      some (NotionUploadCall.create
        (if 1 < numberOfPartsFor ([1, 2, 3] : List Nat).length then
          NotionCreateMode.multi_part (numberOfPartsFor ([1, 2, 3] : List Nat).length)
        else NotionCreateMode.single_part)) ∧
    ((uploadTelegramFileToNotion oracleOverLimit sampleFile).uploadState.status =
      UploadStatus.skipped ∧
     (uploadTelegramFileToNotion oracleOverLimit sampleFile).uploadState.reason =
      some ("File exceeds TELEGRAM_NOTION_MAX_FILE_BYTES (" ++
        toString oracleOverLimit.maxUploadBytes ++ ")") ∧
     (uploadTelegramFileToNotion oracleOverLimit sampleFile).notionCalls = []) :=
  ⟨(uploadSizeCheck_boundary oracleAtLimit sampleFile "documents/file.bin"
      [1, 2, 3] none rfl rfl).1 rfl,
   (uploadSizeCheck_boundary oracleOverLimit sampleFile "documents/file.bin"
      [1, 2, 3] none rfl rfl).2 (by decide)⟩

/-- Counterexample for C4: after page creation, a failing ledger append
(a block-append call) is not swallowed — the handler responds HTTP 500
with `ok: false`, so errors after page creation can cause an HTTP error
response. -/
theorem handlerTail_ledgerError_counterexample :
    (handlerAfterPageCreated tailOracleLedgerError [sampleFile]).status = 500 ∧
    (handlerAfterPageCreated tailOracleLedgerError [sampleFile]).ok = false :=
  ⟨rfl, rfl⟩

/-- C4 (amended): a failing attachment-block append is recovered by the
fallback error-note block and the request still responds 200 `{ok: true}`
whenever the ledger append, the fallback append and the reaction call
succeed; a failing ledger append, by contrast, propagates and produces an
HTTP 500 response carrying the thrown message. -/
theorem handlerTail_errorPropagation (o : HandlerTailOracle) (files : List FileInfo) :
    (o.ledgerAppend = .ok () → o.fallbackAppend = .ok () → o.reaction = .ok () →
      handlerAfterPageCreated o files = { status := 200, ok := true, error := none }) ∧
    (∀ e, files ≠ [] → o.ledgerAppend = .error e →
      handlerAfterPageCreated o files = { status := 500, ok := false, error := some e }) := by
  constructor
  · intro hl hf hr
    by_cases hfl : files.length > 0
    · by_cases hblk : (processAttachments o.perFile files).2.length > 0
      · cases hb : o.attachmentBlocksAppend with
        | error e =>
          simp [handlerAfterPageCreated, handlerTailRun, hl, hf, hr, hb, hfl, hblk]
        | ok u =>
          simp [handlerAfterPageCreated, handlerTailRun, hl, hf, hr, hb, hfl, hblk]
      · simp [handlerAfterPageCreated, handlerTailRun, hl, hr, hfl, hblk]
    · simp [handlerAfterPageCreated, handlerTailRun, hr, hfl]
  · intro e hne hl
    have hfl : files.length > 0 := List.length_pos.mpr hne
    simp [handlerAfterPageCreated, handlerTailRun, hl, hfl]

/-- Witness for C4 (amended): with the attachment-block append failing but
the ledger, fallback and reaction calls succeeding the response is 200
`{ok: true}`, while a failing ledger append yields the 500 response. -/
theorem handlerTail_errorPropagation_witness :
    handlerAfterPageCreated tailOracleBlocksError [sampleFile] =
      { status := 200, ok := true, error := none } ∧
    handlerAfterPageCreated tailOracleLedgerError [sampleFile] =
      { status := 500, ok := false, error := some "ledger append boom" } :=
  ⟨(handlerTail_errorPropagation tailOracleBlocksError [sampleFile]).1 rfl rfl rfl,
   (handlerTail_errorPropagation tailOracleLedgerError [sampleFile]).2
     "ledger append boom" (by simp) rfl⟩

/-- An OR-fold is zero exactly when the seed and every folded value are
zero. -/
lemma foldl_or_eq_zero (f : Nat → Nat) (l : List Nat) (init : Nat) :
    l.foldl (fun acc x => acc ||| f x) init = 0 ↔ init = 0 ∧ ∀ x ∈ l, f x = 0 := by
  induction l generalizing init with
  | nil => simp
  | cons a t ih =>
    rw [List.foldl_cons, ih]
    have hor : init ||| f a = 0 ↔ init = 0 ∧ f a = 0 := by
      constructor
      · intro h
        have hx : init = 0 := by
          apply Nat.eq_of_testBit_eq
          intro i
          have := congrArg (fun n => Nat.testBit n i) h
          simp [Nat.testBit_or] at this
          simp [this.1]
        subst hx
        exact ⟨rfl, by simpa using h⟩
      · rintro ⟨h1, h2⟩
        rw [h1, h2]
        rfl
    rw [hor]
    constructor
    · rintro ⟨⟨h1, h2⟩, h3⟩
      refine ⟨h1, fun x hx => ?_⟩
      rcases List.mem_cons.mp hx with rfl | hx2
      · exact h2
      · exact h3 x hx2
    · rintro ⟨h1, h2⟩
      exact ⟨⟨h1, h2 a (List.mem_cons_self a t)⟩, fun x hx => h2 x (List.mem_cons_of_mem a hx)⟩

/-- The constant-time comparison agrees with equality of the byte
strings. -/
lemma timingSafeStringEquals_iff (a b : List Nat) :
    timingSafeStringEquals a b = true ↔ a = b := by
  rw [timingSafeStringEquals, decide_eq_true_iff, timingSafeDiff, foldl_or_eq_zero]
  constructor
  · rintro ⟨hlen, hbytes⟩
    have hl : a.length = b.length := Nat.xor_eq_zero.mp hlen
    apply List.ext_getElem hl
    intro i h1 h2
    have hi : (a.getD i 0) ^^^ (b.getD i 0) = 0 :=
      hbytes i (List.mem_range.mpr (by omega))
    have := Nat.xor_eq_zero.mp hi
    rwa [List.getD_eq_getElem, List.getD_eq_getElem] at this
  · rintro rfl
    exact ⟨Nat.xor_self _, fun x _ => Nat.xor_self _⟩

/-- C5: with secret enforcement enabled and a secret configured, a request
whose secret header equals the configured secret passes the gate and is
processed, while a missing or non-matching header is answered with 401;
with enforcement enabled but no secret configured the gate answers 500;
with enforcement disabled every request is processed regardless of the
header. -/
theorem webhookSecretGate_cases (flag : Option String)
    (secret header : Option (List Nat)) :
    (∀ s, isTrueEnvFlag flag = true → secret = some s → s ≠ [] →
      webhookSecretGate flag secret (some s) = SecretGateOutcome.processed) ∧
    (∀ s, isTrueEnvFlag flag = true → secret = some s → s ≠ [] →
      (header = none ∨ ∃ h, header = some h ∧ h ≠ s) →
      webhookSecretGate flag secret header = SecretGateOutcome.unauthorized401) ∧
    (isTrueEnvFlag flag = true → (secret = none ∨ secret = some []) →
      webhookSecretGate flag secret header = SecretGateOutcome.misconfigured500) ∧
    (isTrueEnvFlag flag = false →
      webhookSecretGate flag secret header = SecretGateOutcome.processed) := by
  refine ⟨?_, ?_, ?_, ?_⟩
  · intro s hflag hs hsne
    subst hs
    have hts : timingSafeStringEquals s s = true := (timingSafeStringEquals_iff s s).mpr rfl
    have hemp : s.isEmpty = false := by simp [List.isEmpty_iff, hsne]
    simp [webhookSecretGate, isAuthorizedTelegramWebhookRequest, jsFalsyBytes,
      hflag, hemp, hts]
  · intro s hflag hs hsne hbad
    subst hs
    have hemp : s.isEmpty = false := by simp [List.isEmpty_iff, hsne]
    rcases hbad with rfl | ⟨h, rfl, hne⟩
    · simp [webhookSecretGate, isAuthorizedTelegramWebhookRequest, jsFalsyBytes,
        hflag, hemp]
    · by_cases hhe : h.isEmpty
      · simp [webhookSecretGate, isAuthorizedTelegramWebhookRequest, jsFalsyBytes,
          hflag, hemp, hhe]
      · have hts : timingSafeStringEquals h s = false := by
          rw [← Bool.not_eq_true]
          intro hcontra
          exact hne ((timingSafeStringEquals_iff h s).mp hcontra)
        simp [webhookSecretGate, isAuthorizedTelegramWebhookRequest, jsFalsyBytes,
          hflag, hemp, hhe, hts]
  · intro hflag hsecret
    rcases hsecret with rfl | rfl
    · simp [webhookSecretGate, jsFalsyBytes, hflag]
    · simp [webhookSecretGate, jsFalsyBytes, hflag]
  · intro hflag
    simp [webhookSecretGate, isAuthorizedTelegramWebhookRequest, jsFalsyBytes, hflag]

/-- Witness for C5: concrete byte strings exercising all four gate
outcomes with the enforcement flag set to "true". -/
theorem webhookSecretGate_cases_witness :
    webhookSecretGate (some "true") (some [1, 2]) (some [1, 2]) =
      SecretGateOutcome.processed ∧
    webhookSecretGate (some "true") (some [1, 2]) (some [3]) =
      SecretGateOutcome.unauthorized401 ∧
    webhookSecretGate (some "true") (some [1, 2]) none =
      SecretGateOutcome.unauthorized401 ∧
    webhookSecretGate (some "true") none (some [1, 2]) =
      SecretGateOutcome.misconfigured500 ∧
    webhookSecretGate (some "off") (some [1, 2]) none =
      SecretGateOutcome.processed :=
  ⟨(webhookSecretGate_cases (some "true") (some [1, 2]) none).1 [1, 2]
      (by decide) rfl (by decide),
   (webhookSecretGate_cases (some "true") (some [1, 2]) (some [3])).2.1 [1, 2]
      (by decide) rfl (by decide) (Or.inr ⟨[3], rfl, by decide⟩),
   (webhookSecretGate_cases (some "true") (some [1, 2]) none).2.1 [1, 2]
      (by decide) rfl (by decide) (Or.inl rfl),
   (webhookSecretGate_cases (some "true") none (some [1, 2])).2.2.1
      (by decide) (Or.inl rfl),
   (webhookSecretGate_cases (some "off") (some [1, 2]) none).2.2.2 (by decide)⟩

/-- C6: the dedupe check queries on the exact update id when the schema
resolved an Update-ID property and the update id is present; otherwise it
queries on the conjunction of the exact chat id and message id when both
of those properties resolved; with neither combination it answers false
without querying; and whenever it finds an existing page the handler
replies 200 `{ok: true}` and `pages.create` is not called. -/
theorem hasExistingTelegramPage_dedupe (q : DedupeFilter → Bool)
    (updateIdProp : Option String) (updateId : Option Int)
    (chatIdProp : Option String) (chatId : Int)
    (messageIdProp : Option String) (messageId : Int) :
    (∀ p u, p ≠ "" →
      hasExistingTelegramPage q (some p) (some u) chatIdProp chatId
        messageIdProp messageId = q (.updateIdEquals p u)) ∧
    (∀ cp mp, ¬ (jsTruthy updateIdProp = true ∧ updateId ≠ none) → cp ≠ "" → mp ≠ "" →
      hasExistingTelegramPage q updateIdProp updateId (some cp) chatId
        (some mp) messageId = q (.chatAndMessageEquals cp chatId mp messageId)) ∧
    (¬ (jsTruthy updateIdProp = true ∧ updateId ≠ none) →
     ¬ (jsTruthy chatIdProp = true ∧ jsTruthy messageIdProp = true) →
      hasExistingTelegramPage q updateIdProp updateId chatIdProp chatId
        messageIdProp messageId = false) ∧
    (hasExistingTelegramPage q updateIdProp updateId chatIdProp chatId
        messageIdProp messageId = true →
      handlerDedupeStep q updateIdProp updateId chatIdProp chatId
        messageIdProp messageId =
        (some { status := 200, ok := true, error := none }, false)) := by
  refine ⟨?_, ?_, ?_, ?_⟩
  · intro p u hp
    simp [hasExistingTelegramPage, dedupeFilterFor, jsTruthy, hp]
  · intro cp mp hno hcp hmp
    simp only [hasExistingTelegramPage, dedupeFilterFor]
    rw [if_neg hno, if_pos (by simp [jsTruthy, hcp, hmp])]
    rfl
  · intro hno1 hno2
    simp only [hasExistingTelegramPage, dedupeFilterFor]
    rw [if_neg hno1, if_neg hno2]
  · intro hex
    simp [handlerDedupeStep, hex]

/-- Witness for C6: a query oracle that reports an existing row, together
with resolved property names, exercises the update-id filter, the
chat+message filter, the no-filter fallback and the duplicate
short-circuit. -/
theorem hasExistingTelegramPage_dedupe_witness :
    hasExistingTelegramPage (fun _ => true) (some "Update ID") (some 1)
      (some "Chat ID") 100 (some "Message ID") 5 =
      (fun _ : DedupeFilter => true) (.updateIdEquals "Update ID" 1) ∧
    hasExistingTelegramPage (fun _ => true) none (some 1)
      (some "Chat ID") 100 (some "Message ID") 5 =
      (fun _ : DedupeFilter => true) (.chatAndMessageEquals "Chat ID" 100 "Message ID" 5) ∧
    hasExistingTelegramPage (fun _ => true) none (some 1) none 100 none 5 = false ∧
    handlerDedupeStep (fun _ => true) (some "Update ID") (some 1)
      (some "Chat ID") 100 (some "Message ID") 5 =
      (some { status := 200, ok := true, error := none }, false) :=
  ⟨(hasExistingTelegramPage_dedupe (fun _ => true) (some "Update ID") (some 1)
      (some "Chat ID") 100 (some "Message ID") 5).1 "Update ID" 1 (by decide),
   (hasExistingTelegramPage_dedupe (fun _ => true) none (some 1)
      (some "Chat ID") 100 (some "Message ID") 5).2.1 "Chat ID" "Message ID"
      (by simp [jsTruthy]) (by decide) (by decide),
   (hasExistingTelegramPage_dedupe (fun _ => true) none (some 1) none 100 none 5).2.2.1
      (by simp [jsTruthy]) (by simp [jsTruthy]),
   (hasExistingTelegramPage_dedupe (fun _ => true) (some "Update ID") (some 1)
      (some "Chat ID") 100 (some "Message ID") 5).2.2.2 (by decide)⟩

/-- Unfolding step for a truthy head candidate. -/
lemma firstTruthy_cons_pos (c : Option String) (rest : List (Option String))
    (h : jsTruthy c = true) : firstTruthy (c :: rest) = c.getD "" := by
  rw [firstTruthy, if_pos h]

/-- Unfolding step for a falsy head candidate. -/
lemma firstTruthy_cons_neg (c : Option String) (rest : List (Option String))
    (h : jsTruthy c = false) : firstTruthy (c :: rest) = firstTruthy rest := by
  rw [firstTruthy, if_neg (by simp [h])]

/-- Counterexample for C7: with a defined but empty Telegram mime_type
(`""`) and a response Content-Type of "text/plain", the code returns
"text/plain" while the first defined candidate in the claimed order is
the empty Telegram value — MIME inference does not return the first
defined value, only the first defined non-empty one. -/
theorem inferMimeType_firstDefined_counterexample :
    inferMimeType emptyMimeFile (some "text/plain") none = "text/plain" ∧
    firstDefined (specMimeCandidates emptyMimeFile (some "text/plain") none) = "" ∧
    inferMimeType emptyMimeFile (some "text/plain") none ≠
      firstDefined (specMimeCandidates emptyMimeFile (some "text/plain") none) := by
  refine ⟨by decide, by decide, by decide⟩

/-- C7 (amended): MIME inference returns the first defined and non-empty
candidate in the order Telegram-declared mime type, processed response
Content-Type, extension guess from the declared filename, extension guess
from the remote path, per-Telegram-type default, and
application/octet-stream; moreover any file whose inferred MIME type is
"application/pdf" — e.g. one with that Telegram-declared mime type and no
filename extension — is classified with block type pdf. -/
theorem inferMimeType_priority (file : FileInfo) (responseMimeType : Option String)
    (filePath : Option String) (filename : String) :
    inferMimeType file responseMimeType filePath =
      firstTruthy (specMimeCandidates file responseMimeType filePath) ∧
    (file.mime_type = some "application/pdf" →
      inferMimeType file responseMimeType filePath = "application/pdf" ∧
      inferNotionBlockType file "application/pdf" filename =
        NotionAttachmentBlockType.pdf) := by
  constructor
  · simp only [inferMimeType, specMimeCandidates]
    by_cases h1 : jsTruthy file.mime_type = true
    · rw [if_pos h1, firstTruthy_cons_pos _ _ h1]
    · have h1f : jsTruthy file.mime_type = false := Bool.eq_false_iff.mpr h1
      rw [if_neg h1, firstTruthy_cons_neg _ _ h1f]
      by_cases h2 : jsTruthy (processedResponseMime responseMimeType) = true
      · rw [if_pos h2, firstTruthy_cons_pos _ _ h2]
      · have h2f : jsTruthy (processedResponseMime responseMimeType) = false :=
          Bool.eq_false_iff.mpr h2
        rw [if_neg h2, firstTruthy_cons_neg _ _ h2f]
        by_cases h3 : jsTruthy (mimeFromExtension (extensionFromName file.file_name)) = true
        · rw [if_pos h3, firstTruthy_cons_pos _ _ h3]
        · have h3f : jsTruthy (mimeFromExtension (extensionFromName file.file_name)) = false :=
            Bool.eq_false_iff.mpr h3
          rw [if_neg h3, firstTruthy_cons_neg _ _ h3f]
          by_cases h4 : jsTruthy (mimeFromExtension (extensionFromName filePath)) = true
          · rw [if_pos h4, firstTruthy_cons_pos _ _ h4]
          · have h4f : jsTruthy (mimeFromExtension (extensionFromName filePath)) = false :=
              Bool.eq_false_iff.mpr h4
            rw [if_neg h4, firstTruthy_cons_neg _ _ h4f]
            by_cases t1 : file.type = "photo"
            · rw [if_pos t1, if_pos t1, firstTruthy_cons_pos _ _ (by decide)]
              rfl
            · rw [if_neg t1, if_neg t1]
              by_cases t2 : file.type = "video" ∨ file.type = "video_note" ∨
                  file.type = "animation"
              · rw [if_pos t2, if_pos t2, firstTruthy_cons_pos _ _ (by decide)]
                rfl
              · rw [if_neg t2, if_neg t2]
                by_cases t3 : file.type = "audio" ∨ file.type = "voice"
                · rw [if_pos t3, if_pos t3, firstTruthy_cons_pos _ _ (by decide)]
                  rfl
                · rw [if_neg t3, if_neg t3]
                  by_cases t4 : file.type = "sticker"
                  · rw [if_pos t4, if_pos t4, firstTruthy_cons_pos _ _ (by decide)]
                    rfl
                  · rw [if_neg t4, if_neg t4,
                      firstTruthy_cons_neg _ _ (by decide),
                      firstTruthy_cons_pos _ _ (by decide)]
                    rfl
  · intro hpdf
    constructor
    · simp [inferMimeType, hpdf, jsTruthy]
    · simp only [inferNotionBlockType]
      rw [if_neg (by decide), if_neg (by decide), if_neg (by decide),
        if_pos (Or.inl (by decide))]

/-- Witness for C7 (amended): a document with Telegram mime_type
"application/pdf" and a filename with no extension is classified as a pdf
block. -/
theorem inferMimeType_priority_witness :
    inferNotionBlockType
      { file_id := "f3", file_unique_id := "u3",
        mime_type := some "application/pdf", type := "document" }
      "application/pdf" "noextension" = NotionAttachmentBlockType.pdf :=
  ((inferMimeType_priority
      { file_id := "f3", file_unique_id := "u3",
        mime_type := some "application/pdf", type := "document" }
      none none "noextension").2 rfl).2

/-- Counterexample for C8: the value 1.5 (finite, positive, not an
integer) is floored to 1 rather than replaced by the 104,857,600-byte
default, so the effective maximum is not "the configured value when it is
a positive integer and the default in every other case". -/
theorem getMaxUploadBytes_counterexample :
    getMaxUploadBytes (.num (3 / 2)) = 1 ∧
    claimMaxUploadBytes (.num (3 / 2)) = 104857600 ∧
    getMaxUploadBytes (.num (3 / 2)) ≠ claimMaxUploadBytes (.num (3 / 2)) := by
  refine ⟨by norm_num [getMaxUploadBytes], ?_, ?_⟩
  · norm_num [claimMaxUploadBytes, DEFAULT_TELEGRAM_NOTION_MAX_FILE_BYTES]
  · norm_num [getMaxUploadBytes, claimMaxUploadBytes,
      DEFAULT_TELEGRAM_NOTION_MAX_FILE_BYTES]

/-- C8 (amended): the effective maximum equals the configured value when
that value is a positive integer; for a finite configured value that is
positive but not an integer it is the floor of that value (not the
default); and in every other case — zero or negative, NaN (unset or
non-numeric), or infinite — it is the 104,857,600-byte default. -/
theorem getMaxUploadBytes_spec (q : ℚ) (n : ℕ) :
    (0 < n → getMaxUploadBytes (.num n) = n) ∧
    (0 < q → getMaxUploadBytes (.num q) = ⌊q⌋) ∧
    (q ≤ 0 → getMaxUploadBytes (.num q) =
      (DEFAULT_TELEGRAM_NOTION_MAX_FILE_BYTES : ℤ)) ∧
    getMaxUploadBytes .nan = (DEFAULT_TELEGRAM_NOTION_MAX_FILE_BYTES : ℤ) ∧
    getMaxUploadBytes .inf = (DEFAULT_TELEGRAM_NOTION_MAX_FILE_BYTES : ℤ) ∧
    getMaxUploadBytes .negInf = (DEFAULT_TELEGRAM_NOTION_MAX_FILE_BYTES : ℤ) := by
  refine ⟨?_, ?_, ?_, rfl, rfl, rfl⟩
  · intro hn
    have hq : (0 : ℚ) < (n : ℚ) := by exact_mod_cast hn
    simp only [getMaxUploadBytes, if_pos hq]
    exact Int.floor_natCast n
  · intro hq
    simp only [getMaxUploadBytes, if_pos hq]
  · intro hq
    simp only [getMaxUploadBytes, if_neg (not_lt.mpr hq)]

/-- Witness for C8 (amended): a positive integer value 5 is used as-is,
the positive non-integer 3/2 is floored to 1, and the non-positive value
-1 falls back to the default. -/
theorem getMaxUploadBytes_spec_witness :
    getMaxUploadBytes (.num (5 : ℕ)) = 5 ∧
    getMaxUploadBytes (.num (3 / 2)) = ⌊(3 / 2 : ℚ)⌋ ∧
    getMaxUploadBytes (.num (-1)) = (DEFAULT_TELEGRAM_NOTION_MAX_FILE_BYTES : ℤ) :=
  ⟨(getMaxUploadBytes_spec (3 / 2) 5).1 (by norm_num),
   (getMaxUploadBytes_spec (3 / 2) 5).2.1 (by norm_num),
   (getMaxUploadBytes_spec (-1) 5).2.2.1 (by norm_num)⟩

/-- Witness for C9: the shape guarantees instantiated at a concrete
filename containing disallowed characters. -/
theorem sanitizeFilename_nonempty_bounded_charset_witness :
    sanitizeFilename "  my file??.png " ≠ "" ∧
    (sanitizeFilename "  my file??.png ").length ≤ 180 ∧
    (sanitizeFilename "  my file??.png ").data.all isFilenameChar = true :=
  sanitizeFilename_nonempty_bounded_charset "  my file??.png "

/-- Witness for C10: the chunking guarantees instantiated at a concrete
string. -/
theorem splitText_chunks_partition_witness :
    splitText "hello" ≠ [] ∧
    (splitText "hello").all (fun chunk => chunk.length ≤ 1900) = true ∧
    ((splitText "hello").map String.data).flatten = "hello".data ∧
    splitText "" = [""] :=
  splitText_chunks_partition "hello"
